import Mathlib

/-!
Verification development for the DOC Great Walks availability scraper
(`scraper.py`).  The Python source is shallowly embedded: each function of
the script becomes a pure Lean definition, with the HTTP layer represented
by an explicit outcome type and an oracle, and the filesystem by an
association list from paths to file contents.  Machine concerns that the
script never exercises (calendar arithmetic beyond day addition, float
formatting) are embedded at exactly the granularity the script uses them.
-/

namespace Scraper

/-- A JSON scalar as it appears in the request body: the script only ever
puts strings and numbers there. -/
inductive Jv where
  | s (v : String)
  | i (v : Int)
  deriving DecidableEq, Repr

/-- `API_URL` constant from the source. -/
def API_URL : String :=
  "https://prod-nz-rdr.recreation-management.tylerapp.com/nzrdr/rdr/search/greatwalkplacefacility"

/-- `DATA_DIR` constant from the source. -/
def DATA_DIR : String := "data"

/-- The `HEADERS` dict from the source, as an ordered key/value list. -/
def HEADERS : List (String × String) :=
  [("accept", "application/json"),
   ("accept-language", "en,en-AU;q=0.9,en-NZ;q=0.8,en-GB;q=0.7,en-US;q=0.6"),
   ("content-type", "application/json"),
   ("dnt", "1"),
   ("origin", "https://bookings.doc.govt.nz"),
   ("priority", "u=1, i"),
   ("referer", "https://bookings.doc.govt.nz/"),
   ("sec-ch-ua", "\"Chromium\";v=\"140\", \"Not=A?Brand\";v=\"24\", \"Google Chrome\";v=\"140\""),
   ("sec-ch-ua-mobile", "?0"),
   ("sec-ch-ua-platform", "\"Windows\""),
   ("sec-fetch-dest", "empty"),
   ("sec-fetch-mode", "cors"),
   ("sec-fetch-site", "cross-site"),
   ("user-agent", "Mozilla/5.0 (Windows NT 10.0; Win64; x64) AppleWebKit/537.36 (KHTML, like Gecko) Chrome/140.0.0.0 Safari/537.36")]

/-- One per-date object nested in a facility entry of the upstream
response.  Every field is optional: `none` models the key being absent
from the JSON object (the script reads each with `dict.get` and a
default).  `Price` is a JSON number carried through unchanged, embedded
as a rational. -/
structure DateEntry where
  arrivalDate : Option String
  totalCapacity : Option Int
  totalAvailable : Option Int
  bookingStatus : Option String
  price : Option ℚ
  deriving DecidableEq, Repr

/-- One facility object of the upstream response.  `dateData` is the
`GreatWalkFacilityDateData` array; `none` models the key being absent. -/
structure Facility where
  facilityName : Option String
  facilityId : Option Int
  dateData : Option (List DateEntry)
  deriving DecidableEq, Repr

/-- The parsed upstream response body.  `greatWalkFacilityData = none`
models the `GreatWalkFacilityData` key being absent or null (both falsy
in the script's `if not data.get(...)` check, as is `some []`). -/
structure ApiResponse where
  greatWalkFacilityData : Option (List Facility)
  deriving DecidableEq, Repr

/-- Outcome of one `requests.post` call, as the script can observe it:
either the transport layer failed (connection error, timeout — a
`RequestException`), or a response arrived with a status code and a body
that either parsed as JSON (`some`) or did not (`none`, which
`response.json()` turns into a decode error absorbed by the same
`except` clause). -/
inductive HttpOutcome where
  | transportError
  | response (status : Nat) (body : Option ApiResponse)
  deriving DecidableEq, Repr

/-- One output row before the timestamp is injected: the dict built in
the inner loop of `scrape_walk_availability` (lines 108–118). -/
structure Record where
  walk_name : String
  place_id : Int
  facility_name : String
  facility_id : Option Int
  target_date : String
  total_capacity : Int
  total_available : Int
  booking_status : String
  price : ℚ
  deriving DecidableEq, Repr

/-- The record built for one (facility, date entry) pair, with the
source's `dict.get` defaults (lines 101–118). -/
def mkRecord (place_id : Int) (walk_name : String) (f : Facility) (e : DateEntry) : Record :=
  { walk_name := walk_name
    place_id := place_id
    facility_name := f.facilityName.getD "Unknown"
    facility_id := f.facilityId
    target_date := e.arrivalDate.getD ""
    total_capacity := e.totalCapacity.getD 0
    total_available := e.totalAvailable.getD 0
    booking_status := e.bookingStatus.getD ""
    price := e.price.getD 0 }

/-- The nested facility/date loop of `scrape_walk_availability`
(lines 99–119): one record per date entry per facility, a facility's
missing `GreatWalkFacilityDateData` key read as `[]`. -/
def processFacilities (place_id : Int) (walk_name : String) (fs : List Facility) : List Record :=
  fs.flatMap fun f => (f.dateData.getD []).map (mkRecord place_id walk_name f)

/-- `response.raise_for_status()` raises `HTTPError` exactly for status
codes 400–599 (client and server errors); the exception is a
`RequestException` caught by the surrounding `except`. -/
def raiseForStatusFails (status : Nat) : Bool :=
  400 ≤ status && status < 600

/-- `scrape_walk_availability` (lines 59–127), as a function of the HTTP
outcome: transport failures return `[]` via the `except` clause; a 403
returns `[]` early; other 4xx/5xx return `[]` via `raise_for_status` and
the `except` clause; an unparseable body returns `[]` via the decode
error and the `except` clause; a missing/null/empty
`GreatWalkFacilityData` returns `[]`; otherwise the facility data is
flattened into records. -/
def scrape_walk_availability (place_id : Int) (walk_name : String)
    (outcome : HttpOutcome) : List Record :=
  match outcome with
  | .transportError => []
  | .response status body =>
    if status = 403 then []
    else if raiseForStatusFails status then []
    else
      match body with
      | none => []
      | some data =>
        match data.greatWalkFacilityData with
        | none => []
        | some [] => []
        | some fs => processFacilities place_id walk_name fs

/-- Zero-pad a natural to 2 digits (`strftime` field such as `%m`). -/
def pad2 (n : Nat) : String :=
  if n < 10 then "0" ++ toString n else toString n

/-- Zero-pad a natural to 4 digits (`strftime` field `%Y`). -/
def pad4 (n : Nat) : String :=
  if n < 10 then "000" ++ toString n
  else if n < 100 then "00" ++ toString n
  else if n < 1000 then "0" ++ toString n
  else toString n

/-- Zero-pad a natural to 6 digits (the microsecond field of
`datetime.isoformat`). -/
def pad6 (n : Nat) : String :=
  if n < 10 then "00000" ++ toString n
  else if n < 100 then "0000" ++ toString n
  else if n < 1000 then "000" ++ toString n
  else if n < 10000 then "00" ++ toString n
  else if n < 100000 then "0" ++ toString n
  else toString n

/-- Python's `datetime` calendar arithmetic, embedded over a day index:
a date is the number of days since 1970-01-01 (so `datetime + timedelta(days=k)`
is `+ k`), and this function recovers the proleptic Gregorian
`(year, month, day)` triple by the standard civil-from-days algorithm. -/
def civilFromDays (z : Nat) : Nat × Nat × Nat :=
  let z := z + 719468
  let era := z / 146097
  let doe := z % 146097
  let yoe := (doe - doe / 1460 + doe / 36524 - doe / 146096) / 365
  let y := yoe + era * 400
  let doy := doe - (365 * yoe + yoe / 4 - yoe / 100)
  let mp := (5 * doy + 2) / 153
  let d := doy - (153 * mp + 2) / 5 + 1
  let m := if mp < 10 then mp + 3 else mp - 9
  (if m ≤ 2 then y + 1 else y, m, d)

/-- `strftime("%Y-%m-%d")` on a day index. -/
def fmtYmd (z : Nat) : String :=
  let c := civilFromDays z
  pad4 c.1 ++ "-" ++ pad2 c.2.1 ++ "-" ++ pad2 c.2.2

/-- The request list built by `scrape_walk_full_year` (lines 142–157):
`requests_needed = days_ahead // nights_per_request + 1` entries, the
i-th being `(i + 1, strftime of current_date + i * nights_per_request days)`.
`now` is the day index of that walk's `datetime.now()`. -/
def walkRequests (now : Nat) (days_ahead : Nat) (nights_per_request : Nat) :
    List (Nat × String) :=
  (List.range (days_ahead / nights_per_request + 1)).map fun i =>
    (i + 1, fmtYmd (now + i * nights_per_request))

/-- The JSON request body built in `scrape_walk_availability`
(lines 69–75), as an ordered key/value list so the key spelling is part
of the embedding. -/
def buildPayload (place_id : Int) (arrival_date : String) (nights : Int) :
    List (String × Jv) :=
  [("accomodation", .s ""),
   ("placeId", .i place_id),
   ("customerClassificationId", .i 0),
   ("arrivalDate", .s arrival_date),
   ("nights", .i nights)]

/-- One outbound HTTP request as `requests.post(API_URL, headers=HEADERS,
json=payload, timeout=30)` issues it (line 79). -/
structure Request where
  url : String
  method : String
  headers : List (String × String)
  body : List (String × Jv)
  timeout : Nat
  deriving DecidableEq, Repr

/-- The request sent for one payload (line 79). -/
def buildRequest (payload : List (String × Jv)) : Request :=
  { url := API_URL
    method := "POST"
    headers := HEADERS
    body := payload
    timeout := 30 }

/-- The HTTP environment for a run: what outcome each request gets.
Deterministic oracle standing for the network. -/
def Oracle := Request → HttpOutcome

/-- `scrape_walk_full_year` (lines 130–190): builds the request list,
dispatches `scrape_walk_availability` for each (the thread pool only
reorders completion, and the result collection has no ordering
dependency, so the embedding runs them in request order), and returns
both the trace of issued requests and the concatenated records. -/
def scrape_walk_full_year (oracle : Oracle) (place_id : Int) (walk_name : String)
    (now : Nat) (days_ahead : Nat) (nights_per_request : Nat) :
    List Request × List Record :=
  let reqs := (walkRequests now days_ahead nights_per_request).map fun r =>
    buildRequest (buildPayload place_id r.2 nights_per_request)
  (reqs, reqs.flatMap fun rq => scrape_walk_availability place_id walk_name (oracle rq))

/-- `datetime.now()` value used for `check_timestamp` and the output
path, with the fields the script formats. -/
structure Timestamp where
  year : Nat
  month : Nat
  day : Nat
  hour : Nat
  minute : Nat
  second : Nat
  microsecond : Nat
  deriving DecidableEq, Repr

/-- `datetime.isoformat()`: `YYYY-MM-DDTHH:MM:SS[.ffffff]`, the
fractional part present exactly when the microsecond is nonzero. -/
def Timestamp.isoformat (t : Timestamp) : String :=
  pad4 t.year ++ "-" ++ pad2 t.month ++ "-" ++ pad2 t.day ++ "T" ++
    pad2 t.hour ++ ":" ++ pad2 t.minute ++ ":" ++ pad2 t.second ++
    (if t.microsecond = 0 then "" else "." ++ pad6 t.microsecond)

/-- The output path built in `save_scrape_results` (lines 204–209):
`data/YYYY/MM/YYYY-MM-DD-HHMM.csv` from the run's timestamp. -/
def csvPath (t : Timestamp) : String :=
  DATA_DIR ++ "/" ++ pad4 t.year ++ "/" ++ pad2 t.month ++ "/" ++
    pad4 t.year ++ "-" ++ pad2 t.month ++ "-" ++ pad2 t.day ++ "-" ++
    pad2 t.hour ++ pad2 t.minute ++ ".csv"

/-- A CSV cell as handed to `csv.DictWriter`: the values the script puts
in a row dict.  Stringification of numbers is the writer's concern and
not observed by any contract, so cells stay typed. -/
inductive Field where
  | str (v : String)
  | int (v : Int)
  | optInt (v : Option Int)
  | price (v : ℚ)
  deriving DecidableEq, Repr

/-- The `fieldnames` list of `save_scrape_results` (lines 216–227). -/
def fieldnames : List String :=
  ["check_timestamp", "walk_name", "place_id", "facility_name", "facility_id",
   "target_date", "total_capacity", "total_available", "booking_status", "price"]

/-- One data row as `DictWriter` emits it: the record's values in
`fieldnames` order, with `check_timestamp` injected (lines 211–213)
as `check_timestamp.isoformat()`. -/
def stampedRow (t : Timestamp) (r : Record) : List Field :=
  [.str t.isoformat, .str r.walk_name, .int r.place_id, .str r.facility_name,
   .optInt r.facility_id, .str r.target_date, .int r.total_capacity,
   .int r.total_available, .str r.booking_status, .price r.price]

/-- `save_scrape_results` (lines 193–235) as a pure function: `none`
when there are no records (no file is created), otherwise the path and
the file's rows — header first, then one stamped row per record. -/
def save_scrape_results (records : List Record) (check_timestamp : Timestamp) :
    Option (String × List (List Field)) :=
  if records.isEmpty then none
  else some (csvPath check_timestamp,
    (fieldnames.map .str) :: records.map (stampedRow check_timestamp))

/-- The filesystem under `data/`: an association list from paths to file
contents. -/
def FileSystem := List (String × List (List Field))

/-- `open(filename, "w")` followed by a full write: creates or truncates,
i.e. unconditionally replaces whatever was at the path. -/
def writeFile (fs : FileSystem) (path : String) (content : List (List Field)) :
    FileSystem :=
  (path, content) :: List.filter (fun e => e.1 ≠ path) fs

/-- Contents at a path, `none` when no such file exists. -/
def readFile (fs : FileSystem) (path : String) : Option (List (List Field)) :=
  (List.find? (fun e => e.1 = path) fs).map (fun e => e.2)

/-- `save_scrape_results` acting on the filesystem: no records, no
write; otherwise the derived path is (over)written with the rows. -/
def save_scrape_results_fs (fs : FileSystem) (records : List Record)
    (check_timestamp : Timestamp) : FileSystem :=
  match save_scrape_results records check_timestamp with
  | none => fs
  | some pc => writeFile fs pc.1 pc.2

/-- One entry of the config's `walks` array.  `enabled = none` models a
missing `"enabled"` key (`w.get("enabled", False)`); `placeId = none`
models a missing or null `"placeId"` (`w.get("placeId") is not None`
treats both alike). -/
structure Walk where
  name : String
  placeId : Option Int
  enabled : Option Bool
  deriving DecidableEq, Repr

/-- The config's `scraping` object; each parameter optional with the
defaults read at lines 261–264. -/
structure Scraping where
  days_ahead : Option Nat
  nights_per_request : Option Nat
  max_workers_per_walk : Option Nat
  max_parallel_walks : Option Nat
  deriving DecidableEq, Repr

/-- The loaded `config/walks.json` document. -/
structure Config where
  walks : List Walk
  scraping : Scraping
  deriving DecidableEq, Repr

/-- The filter at line 249:
`[w for w in config["walks"] if w.get("enabled", False) and w.get("placeId") is not None]`. -/
def enabledWalks (ws : List Walk) : List Walk :=
  ws.filter fun w => w.enabled.getD false && w.placeId.isSome

/-- What one run leaves behind: the trace of HTTP requests issued and
the output file, if any. -/
structure RunResult where
  fetches : List Request
  output : Option (String × List (List Field))
  deriving DecidableEq, Repr

/-- `main` (lines 238–333) as a pure function of the config, the HTTP
environment, the day index `now` at which scheduling starts, and the
`check_timestamp` captured at line 278: filter to enabled walks and exit
early (no fetches, no file) when none remain; otherwise scrape every
enabled walk over the horizon, pool the records, and save them when
nonempty.  The nested thread pools only reorder completions; record
order is not a contract, so walks run in list order. -/
def runMain (cfg : Config) (oracle : Oracle) (now : Nat) (check_timestamp : Timestamp) :
    RunResult :=
  let enabled := enabledWalks cfg.walks
  if enabled.isEmpty then { fetches := [], output := none }
  else
    let days_ahead := cfg.scraping.days_ahead.getD 365
    let nights_per_request := cfg.scraping.nights_per_request.getD 30
    let results := enabled.map fun w =>
      scrape_walk_full_year oracle (w.placeId.getD 0) w.name now days_ahead nights_per_request
    let all_records := results.flatMap Prod.snd
    { fetches := results.flatMap Prod.fst
      output := if all_records.isEmpty then none
                else save_scrape_results all_records check_timestamp }

/-- Helper: a response the script treats as success (not 403, not a
`raise_for_status` code) with a parsed, non-empty facility array is
flattened by `processFacilities`. -/
theorem scrape_response_ok (place_id : Int) (walk_name : String) (s : Nat)
    (fs : List Facility) (h403 : s ≠ 403) (hr : raiseForStatusFails s = false)
    (hne : fs ≠ []) :
    scrape_walk_availability place_id walk_name (.response s (some ⟨some fs⟩)) =
      processFacilities place_id walk_name fs := by
  cases fs with
  | nil => exact absurd rfl hne
  | cons f fs' => simp [scrape_walk_availability, h403, hr]

/-- C1: for every horizon `H` and positive window `W`, the range
scheduler builds exactly `H / W + 1` requests, and the i-th request's
start date is the walk's scheduling instant plus `i * W` days rendered
as `YYYY-MM-DD`. -/
theorem scheduler_covers_horizon (now H W : Nat) (hW : 0 < W) :
    (walkRequests now H W).length = H / W + 1 ∧
    ∀ i : Nat, i < H / W + 1 →
      (walkRequests now H W)[i]? = some (i + 1, fmtYmd (now + i * W)) := by
  refine ⟨by simp [walkRequests], ?_⟩
  intro i hi
  simp [walkRequests, List.getElem?_map, List.getElem?_range, hi]

/-- C1 witness: the spec's end-to-end example — horizon 60, window 30
give 3 requests with offsets 0, 30, 60 days. -/
theorem scheduler_covers_horizon_witness :
    (0 < 30 ∧ (walkRequests 20000 60 30).length = 60 / 30 + 1) ∧
    (walkRequests 20000 60 30)[2]? = some (2 + 1, fmtYmd (20000 + 2 * 30)) :=
  ⟨⟨by decide, (scheduler_covers_horizon 20000 60 30 (by decide)).1⟩,
    (scheduler_covers_horizon 20000 60 30 (by decide)).2 2 (by decide)⟩

/-- C2 counterexample: the claim says every non-2xx status yields an
empty list, but `raise_for_status` only raises for 400–599.  A 300
response (which `requests` does not auto-redirect) carrying facility
data is processed as a success: the fetcher returns a non-empty record
list for a status that is not 2xx. -/
theorem fetcher_non2xx_not_empty :
    ¬ (200 ≤ 300 ∧ 300 < 300) ∧
    scrape_walk_availability 873 "Milford Track"
        (.response 300 (some ⟨some [⟨some "Clinton Hut", some 7,
          some [⟨some "2025-01-01", some 40, some 12, some "OPEN", some 78⟩]⟩]⟩)) =
      [⟨"Milford Track", 873, "Clinton Hut", some 7, "2025-01-01", 40, 12, "OPEN", 78⟩] :=
  ⟨by decide, rfl⟩

/-- C2 (amended): the fetcher is total and absorbs every listed failure
as an empty record list — a transport failure or timeout, an HTTP 403,
any status 400–599 (the statuses `raise_for_status` raises for, rather
than every non-2xx status), an unparseable body, and a parsed body whose
facility-data field is missing/null or empty. -/
theorem fetcher_absorbs_failures (place_id : Int) (walk_name : String) :
    scrape_walk_availability place_id walk_name .transportError = [] ∧
    (∀ body, scrape_walk_availability place_id walk_name (.response 403 body) = []) ∧
    (∀ s body, 400 ≤ s → s < 600 →
      scrape_walk_availability place_id walk_name (.response s body) = []) ∧
    (∀ s, scrape_walk_availability place_id walk_name (.response s none) = []) ∧
    (∀ s, scrape_walk_availability place_id walk_name (.response s (some ⟨none⟩)) = []) ∧
    (∀ s, scrape_walk_availability place_id walk_name (.response s (some ⟨some []⟩)) = []) := by
  refine ⟨rfl, fun body => rfl, ?_, ?_, ?_, ?_⟩
  · intro s body h1 h2
    have hr : raiseForStatusFails s = true := by
      simp [raiseForStatusFails]
      omega
    by_cases h4 : s = 403 <;> simp [scrape_walk_availability, h4, hr]
  · intro s
    by_cases h4 : s = 403 <;> by_cases hr : raiseForStatusFails s <;>
      simp [scrape_walk_availability, h4, hr]
  · intro s
    by_cases h4 : s = 403 <;> by_cases hr : raiseForStatusFails s <;>
      simp [scrape_walk_availability, h4, hr]
  · intro s
    by_cases h4 : s = 403 <;> by_cases hr : raiseForStatusFails s <;>
      simp [scrape_walk_availability, h4, hr]

/-- C2 witness: concrete failure modes — a 500 with an unparsed body and
a transport error both yield the empty list. -/
theorem fetcher_absorbs_failures_witness :
    ((400 ≤ 500 ∧ 500 < 600) ∧
      scrape_walk_availability 873 "Milford Track" (.response 500 none) = []) ∧
    scrape_walk_availability 873 "Milford Track" .transportError = [] :=
  ⟨⟨⟨by decide, by decide⟩,
    (fetcher_absorbs_failures 873 "Milford Track").2.2.1 500 none (by decide) (by decide)⟩,
   (fetcher_absorbs_failures 873 "Milford Track").1⟩

/-- C3: a 2xx response with a non-empty facility array yields exactly
one record per (facility entry, per-date entry) pair, with the field
mapping and missing-field defaults spelled out: facility name defaults
to "Unknown", facility id to absent, target date and status to "",
capacity and availability to 0, price to 0. -/
theorem fetcher_field_mapping (place_id : Int) (walk_name : String) (s : Nat)
    (fs : List Facility) (h2a : 200 ≤ s) (h2b : s < 300) (hne : fs ≠ []) :
    scrape_walk_availability place_id walk_name (.response s (some ⟨some fs⟩)) =
      fs.flatMap fun f => (f.dateData.getD []).map fun e =>
        { walk_name := walk_name
          place_id := place_id
          facility_name := f.facilityName.getD "Unknown"
          facility_id := f.facilityId
          target_date := e.arrivalDate.getD ""
          total_capacity := e.totalCapacity.getD 0
          total_available := e.totalAvailable.getD 0
          booking_status := e.bookingStatus.getD ""
          price := e.price.getD 0 } := by
  rw [scrape_response_ok place_id walk_name s fs (by omega)
    (by simp [raiseForStatusFails]; omega) hne]
  rfl

/-- C3 witness: the spec's end-to-end example — a facility entry missing
`FacilityId` whose single date entry is missing `Price` yields one
record with an absent facility id, price 0, and the other fields taken
from the entry. -/
theorem fetcher_field_mapping_witness :
    ((200 ≤ 200 ∧ 200 < 300) ∧
      ([⟨some "Clinton Hut", none,
         some [⟨some "2025-03-01", some 40, some 5, some "OPEN", none⟩]⟩] :
        List Facility) ≠ []) ∧
    scrape_walk_availability 873 "Milford Track"
        (.response 200 (some ⟨some [⟨some "Clinton Hut", none,
          some [⟨some "2025-03-01", some 40, some 5, some "OPEN", none⟩]⟩]⟩)) =
      [{ walk_name := "Milford Track", place_id := 873,
         facility_name := "Clinton Hut", facility_id := none,
         target_date := "2025-03-01", total_capacity := 40,
         total_available := 5, booking_status := "OPEN", price := 0 }] :=
  ⟨⟨⟨by decide, by decide⟩, by decide⟩,
    (fetcher_field_mapping 873 "Milford Track" 200 _
      (by decide) (by decide) (by decide)).trans rfl⟩

/-- Helper: the path and rows a successful save carries. -/
theorem save_scrape_results_rows (records : List Record) (t : Timestamp)
    (path : String) (rows : List (List Field))
    (h : save_scrape_results records t = some (path, rows)) :
    path = csvPath t ∧ rows = (fieldnames.map .str) :: records.map (stampedRow t) := by
  unfold save_scrape_results at h
  split at h
  · exact absurd h (by simp)
  · have h' := Option.some.inj h
    exact ⟨(congrArg Prod.fst h').symm, (congrArg Prod.snd h').symm⟩

/-- Helper: any output `runMain` produces comes from
`save_scrape_results` applied at the run's single timestamp. -/
theorem runMain_output_from_save (cfg : Config) (oracle : Oracle) (now : Nat)
    (t : Timestamp) (pr : String × List (List Field))
    (h : (runMain cfg oracle now t).output = some pr) :
    ∃ records, save_scrape_results records t = some pr := by
  by_cases he : (enabledWalks cfg.walks).isEmpty = true
  · simp [runMain, he] at h
  · simp only [runMain, he, if_false, Bool.false_eq_true] at h
    split at h
    · exact absurd h (by simp)
    · exact ⟨_, h⟩

/-- C4: every data row of the file a run writes carries the same
`check_timestamp` cell, the ISO rendering of the single instant captured
once per run and passed to the writer, injected at write time. -/
theorem run_timestamp_uniform (cfg : Config) (oracle : Oracle) (now : Nat)
    (check_timestamp : Timestamp) (path : String) (rows : List (List Field))
    (h : (runMain cfg oracle now check_timestamp).output = some (path, rows)) :
    ∀ row ∈ rows.tail, row.head? = some (.str check_timestamp.isoformat) := by
  obtain ⟨records, hsave⟩ := runMain_output_from_save cfg oracle now check_timestamp _ h
  obtain ⟨-, hrows⟩ := save_scrape_results_rows records check_timestamp path rows hsave
  subst hrows
  intro row hrow
  simp only [List.tail_cons] at hrow
  obtain ⟨r, -, rfl⟩ := List.mem_map.mp hrow
  rfl

/-- C4 witness: a one-walk, one-request run whose single data row's
first cell is the run timestamp's ISO rendering. -/
theorem run_timestamp_uniform_witness :
    (stampedRow ⟨2025, 1, 2, 3, 4, 5, 0⟩
        { walk_name := "Kepler Track", place_id := 5, facility_name := "F",
          facility_id := some 2, target_date := "1970-01-01",
          total_capacity := 4, total_available := 3, booking_status := "OPEN",
          price := 10 }).head? =
      some (.str (Timestamp.mk 2025 1 2 3 4 5 0).isoformat) :=
  run_timestamp_uniform
    ⟨[⟨"Kepler Track", some 5, some true⟩], ⟨some 0, some 1, none, none⟩⟩
    (fun _ => .response 200 (some ⟨some [⟨some "F", some 2,
      some [⟨some "1970-01-01", some 4, some 3, some "OPEN", some 10⟩]⟩]⟩))
    0 ⟨2025, 1, 2, 3, 4, 5, 0⟩
    (csvPath ⟨2025, 1, 2, 3, 4, 5, 0⟩)
    ((fieldnames.map .str) :: [stampedRow ⟨2025, 1, 2, 3, 4, 5, 0⟩
      { walk_name := "Kepler Track", place_id := 5, facility_name := "F",
        facility_id := some 2, target_date := "1970-01-01",
        total_capacity := 4, total_available := 3, booking_status := "OPEN",
        price := 10 }])
    (by rfl)
    (stampedRow ⟨2025, 1, 2, 3, 4, 5, 0⟩
      { walk_name := "Kepler Track", place_id := 5, facility_name := "F",
        facility_id := some 2, target_date := "1970-01-01",
        total_capacity := 4, total_available := 3, booking_status := "OPEN",
        price := 10 })
    (by simp)

/-- C5: the writer creates no file for an empty record list; for a
non-empty list it produces exactly one file at
`data/YYYY/MM/YYYY-MM-DD-HHMM.csv` derived from the run instant, whose
first row is exactly the fixed ordered header and which has one further
row per record. -/
theorem writer_file_contract (records : List Record) (t : Timestamp)
    (hne : records ≠ []) :
    save_scrape_results [] t = none ∧
    csvPath t = "data" ++ "/" ++ pad4 t.year ++ "/" ++ pad2 t.month ++ "/" ++
      pad4 t.year ++ "-" ++ pad2 t.month ++ "-" ++ pad2 t.day ++ "-" ++
      pad2 t.hour ++ pad2 t.minute ++ ".csv" ∧
    save_scrape_results records t = some (csvPath t,
      (["check_timestamp", "walk_name", "place_id", "facility_name",
        "facility_id", "target_date", "total_capacity", "total_available",
        "booking_status", "price"].map Field.str) ::
        records.map (stampedRow t)) ∧
    ∀ path rows, save_scrape_results records t = some (path, rows) →
      rows.length = records.length + 1 := by
  refine ⟨rfl, rfl, ?_, ?_⟩
  · simp [save_scrape_results, hne, fieldnames]
  · intro path rows h
    obtain ⟨-, hrows⟩ := save_scrape_results_rows records t path rows h
    subst hrows
    simp

/-- C5 witness: one record saved at timestamp 2025-01-02 03:04 lands in
`data/2025/01/2025-01-02-0304.csv` under the fixed header. -/
theorem writer_file_contract_witness :
    (([{ walk_name := "Kepler Track", place_id := 5, facility_name := "F",
         facility_id := none, target_date := "2025-03-01", total_capacity := 4,
         total_available := 3, booking_status := "OPEN", price := 0 }] :
        List Record) ≠ []) ∧
    save_scrape_results
        [{ walk_name := "Kepler Track", place_id := 5, facility_name := "F",
           facility_id := none, target_date := "2025-03-01", total_capacity := 4,
           total_available := 3, booking_status := "OPEN", price := 0 }]
        ⟨2025, 1, 2, 3, 4, 5, 0⟩ =
      some (csvPath ⟨2025, 1, 2, 3, 4, 5, 0⟩,
        (["check_timestamp", "walk_name", "place_id", "facility_name",
          "facility_id", "target_date", "total_capacity", "total_available",
          "booking_status", "price"].map Field.str) ::
          [{ walk_name := "Kepler Track", place_id := 5, facility_name := "F",
             facility_id := none, target_date := "2025-03-01", total_capacity := 4,
             total_available := 3, booking_status := "OPEN",
             price := 0 }].map (stampedRow ⟨2025, 1, 2, 3, 4, 5, 0⟩)) :=
  ⟨by decide,
    (writer_file_contract
      [{ walk_name := "Kepler Track", place_id := 5, facility_name := "F",
         facility_id := none, target_date := "2025-03-01", total_capacity := 4,
         total_available := 3, booking_status := "OPEN", price := 0 }]
      ⟨2025, 1, 2, 3, 4, 5, 0⟩ (by decide)).2.2.1⟩

/-- C6 counterexample: the writer opens the derived path with mode "w"
unconditionally, so a pre-existing file at the same minute-granularity
path is silently replaced: here the old contents at the path are gone
after a save of one record at the same timestamp. -/
theorem writer_overwrite_silently :
    readFile [(csvPath ⟨2025, 1, 2, 3, 4, 5, 0⟩, [[Field.str "old contents"]])]
        (csvPath ⟨2025, 1, 2, 3, 4, 5, 0⟩) = some [[Field.str "old contents"]] ∧
    readFile
        (save_scrape_results_fs
          [(csvPath ⟨2025, 1, 2, 3, 4, 5, 0⟩, [[Field.str "old contents"]])]
          [{ walk_name := "Kepler Track", place_id := 5, facility_name := "F",
             facility_id := none, target_date := "2025-03-01",
             total_capacity := 4, total_available := 3,
             booking_status := "OPEN", price := 0 }]
          ⟨2025, 1, 2, 3, 4, 5, 0⟩)
        (csvPath ⟨2025, 1, 2, 3, 4, 5, 0⟩) ≠ some [[Field.str "old contents"]] := by
  constructor
  · rfl
  · decide

/-- C6 (amended): the writer overwrites unconditionally — after saving a
non-empty record list, the derived path holds exactly the new header and
rows, whatever the filesystem held there before. -/
theorem writer_overwrites_unconditionally (fs : FileSystem)
    (records : List Record) (t : Timestamp) (hne : records ≠ []) :
    readFile (save_scrape_results_fs fs records t) (csvPath t) =
      some ((fieldnames.map Field.str) :: records.map (stampedRow t)) := by
  have hs : save_scrape_results records t =
      some (csvPath t, (fieldnames.map Field.str) :: records.map (stampedRow t)) := by
    simp [save_scrape_results, hne]
  simp [save_scrape_results_fs, hs, writeFile, readFile]

/-- C6 witness: overwriting a concrete one-file filesystem. -/
theorem writer_overwrites_unconditionally_witness :
    (([{ walk_name := "Kepler Track", place_id := 5, facility_name := "F",
         facility_id := none, target_date := "2025-03-01", total_capacity := 4,
         total_available := 3, booking_status := "OPEN", price := 0 }] :
        List Record) ≠ []) ∧
    readFile
        (save_scrape_results_fs
          [(csvPath ⟨2025, 1, 2, 3, 4, 5, 0⟩, [[Field.str "old contents"]])]
          [{ walk_name := "Kepler Track", place_id := 5, facility_name := "F",
             facility_id := none, target_date := "2025-03-01",
             total_capacity := 4, total_available := 3,
             booking_status := "OPEN", price := 0 }]
          ⟨2025, 1, 2, 3, 4, 5, 0⟩)
        (csvPath ⟨2025, 1, 2, 3, 4, 5, 0⟩) =
      some ((fieldnames.map Field.str) ::
        [{ walk_name := "Kepler Track", place_id := 5, facility_name := "F",
           facility_id := none, target_date := "2025-03-01", total_capacity := 4,
           total_available := 3, booking_status := "OPEN",
           price := 0 }].map (stampedRow ⟨2025, 1, 2, 3, 4, 5, 0⟩)) :=
  ⟨by decide,
    writer_overwrites_unconditionally
      [(csvPath ⟨2025, 1, 2, 3, 4, 5, 0⟩, [[Field.str "old contents"]])]
      [{ walk_name := "Kepler Track", place_id := 5, facility_name := "F",
         facility_id := none, target_date := "2025-03-01", total_capacity := 4,
         total_available := 3, booking_status := "OPEN", price := 0 }]
      ⟨2025, 1, 2, 3, 4, 5, 0⟩ (by decide)⟩

/-- C7: the coordinator fetches exactly for the walks that pass the
enabled-and-placeId filter — `H / W + 1` requests per surviving walk,
each request belonging to a surviving walk — and when no walk survives
the run exits early with no fetches and no output file. -/
theorem coordinator_enabled_filter (cfg : Config) (oracle : Oracle) (now : Nat)
    (t : Timestamp) :
    (enabledWalks cfg.walks = [] →
      runMain cfg oracle now t = { fetches := [], output := none }) ∧
    (runMain cfg oracle now t).fetches.length =
      (enabledWalks cfg.walks).length *
        (cfg.scraping.days_ahead.getD 365 / cfg.scraping.nights_per_request.getD 30 + 1) ∧
    ∀ rq ∈ (runMain cfg oracle now t).fetches,
      ∃ w ∈ enabledWalks cfg.walks, ∃ i : Nat,
        rq = buildRequest (buildPayload (w.placeId.getD 0)
          (fmtYmd (now + i * cfg.scraping.nights_per_request.getD 30))
          (cfg.scraping.nights_per_request.getD 30)) := by
  refine ⟨fun h => by simp [runMain, h], ?_, ?_⟩
  · by_cases he : (enabledWalks cfg.walks).isEmpty = true
    · have h0 : enabledWalks cfg.walks = [] := by
        simpa [List.isEmpty_iff] using he
      simp [runMain, he, h0]
    · simp only [runMain, he, Bool.false_eq_true, if_false]
      rw [List.length_flatMap, List.map_map]
      have hlen : ∀ w ∈ enabledWalks cfg.walks,
          ((List.length ∘ Prod.fst) ∘ fun w : Walk => scrape_walk_full_year oracle
            (w.placeId.getD 0) w.name now (cfg.scraping.days_ahead.getD 365)
            (cfg.scraping.nights_per_request.getD 30)) w =
          cfg.scraping.days_ahead.getD 365 /
            cfg.scraping.nights_per_request.getD 30 + 1 := by
        intro w _
        simp [scrape_walk_full_year, walkRequests]
      rw [List.map_congr_left hlen]
      simp [List.map_const', mul_comm]
  · intro rq hrq
    by_cases he : (enabledWalks cfg.walks).isEmpty = true
    · simp [runMain, he] at hrq
    · simp only [runMain, he, Bool.false_eq_true, if_false] at hrq
      obtain ⟨res, hres, hrq⟩ := List.mem_flatMap.mp hrq
      obtain ⟨w, hw, rfl⟩ := List.mem_map.mp hres
      simp only [scrape_walk_full_year] at hrq
      obtain ⟨pr, hpr, rfl⟩ := List.mem_map.mp hrq
      simp only [walkRequests] at hpr
      obtain ⟨i, -, rfl⟩ := List.mem_map.mp hpr
      exact ⟨w, hw, i, rfl⟩

/-- C7 witness: a config whose walks are disabled or lack a placeId
produces the early-exit run — no fetches, no file. -/
theorem coordinator_enabled_filter_witness :
    runMain
        ⟨[⟨"Milford Track", some 873, some false⟩,
          ⟨"Kepler Track", none, some true⟩], ⟨none, none, none, none⟩⟩
        (fun _ => .transportError) 0 ⟨2025, 1, 1, 0, 0, 0, 0⟩ =
      { fetches := [], output := none } :=
  (coordinator_enabled_filter
    ⟨[⟨"Milford Track", some 873, some false⟩,
      ⟨"Kepler Track", none, some true⟩], ⟨none, none, none, none⟩⟩
    (fun _ => .transportError) 0 ⟨2025, 1, 1, 0, 0, 0, 0⟩).1 (by decide)

/-- C8: each upstream call POSTs to the fixed URL with the fixed header
set and timeout 30, and its JSON body is exactly the five listed keys in
order — with the upstream's misspelling "accomodation" reproduced
verbatim and no "accommodation" key. -/
theorem request_shape (place_id : Int) (arrival_date : String) (nights : Int) :
    buildRequest (buildPayload place_id arrival_date nights) =
      { url := API_URL, method := "POST", headers := HEADERS,
        body := [("accomodation", .s ""), ("placeId", .i place_id),
                 ("customerClassificationId", .i 0),
                 ("arrivalDate", .s arrival_date), ("nights", .i nights)],
        timeout := 30 } ∧
    (buildPayload place_id arrival_date nights).map Prod.fst =
      ["accomodation", "placeId", "customerClassificationId", "arrivalDate",
       "nights"] ∧
    "accommodation" ∉ (buildPayload place_id arrival_date nights).map Prod.fst :=
  ⟨rfl, rfl, by
    have h : (buildPayload place_id arrival_date nights).map Prod.fst =
        ["accomodation", "placeId", "customerClassificationId", "arrivalDate",
         "nights"] := rfl
    rw [h]
    decide⟩

/-- C9: a facility entry whose `GreatWalkFacilityDateData` key is
missing entirely contributes zero records and does not disturb the
records produced from the other facility entries of a 2xx response. -/
theorem facility_missing_datedata_dropped (place_id : Int) (walk_name : String)
    (s : Nat) (fs₁ fs₂ : List Facility) (f : Facility)
    (h2a : 200 ≤ s) (h2b : s < 300) (hf : f.dateData = none) :
    processFacilities place_id walk_name [f] = [] ∧
    scrape_walk_availability place_id walk_name
        (.response s (some ⟨some (fs₁ ++ f :: fs₂)⟩)) =
      processFacilities place_id walk_name fs₁ ++
        processFacilities place_id walk_name fs₂ := by
  refine ⟨by simp [processFacilities, hf], ?_⟩
  rw [scrape_response_ok place_id walk_name s (fs₁ ++ f :: fs₂) (by omega)
    (by simp [raiseForStatusFails]; omega) (by simp)]
  simp [processFacilities, hf]

/-- C9 witness: a facility with no date-data key between two normal
facilities leaves exactly the records of its neighbours. -/
theorem facility_missing_datedata_dropped_witness :
    ((200 ≤ 200 ∧ 200 < 300) ∧
      (Facility.mk (some "Dumpling Hut") (some 9) none).dateData = none) ∧
    scrape_walk_availability 873 "Milford Track"
        (.response 200 (some ⟨some
          [⟨some "Clinton Hut", some 7,
            some [⟨some "2025-03-01", some 40, some 12, some "OPEN", some 78⟩]⟩,
           ⟨some "Dumpling Hut", some 9, none⟩,
           ⟨some "Mintaro Hut", some 8,
            some [⟨some "2025-03-02", some 40, some 0, some "FULL", some 78⟩]⟩]⟩)) =
      processFacilities 873 "Milford Track"
          [⟨some "Clinton Hut", some 7,
            some [⟨some "2025-03-01", some 40, some 12, some "OPEN", some 78⟩]⟩] ++
        processFacilities 873 "Milford Track"
          [⟨some "Mintaro Hut", some 8,
            some [⟨some "2025-03-02", some 40, some 0, some "FULL", some 78⟩]⟩] :=
  ⟨⟨⟨by decide, by decide⟩, rfl⟩,
    (facility_missing_datedata_dropped 873 "Milford Track" 200
      [⟨some "Clinton Hut", some 7,
        some [⟨some "2025-03-01", some 40, some 12, some "OPEN", some 78⟩]⟩]
      [⟨some "Mintaro Hut", some 8,
        some [⟨some "2025-03-02", some 40, some 0, some "FULL", some 78⟩]⟩]
      ⟨some "Dumpling Hut", some 9, none⟩
      (by decide) (by decide) rfl).2⟩

/-- C10: a config walk entry without an `enabled` key is filtered out
exactly as if it carried `enabled = false`, and an entry whose placeId
is null/missing is filtered out even when `enabled = true`. -/
theorem config_missing_keys_filtered (w : Walk) (ws : List Walk) :
    (w.enabled = none →
      enabledWalks (w :: ws) = enabledWalks ws ∧
      enabledWalks (w :: ws) =
        enabledWalks ({ w with enabled := some false } :: ws)) ∧
    (w.placeId = none → w.enabled = some true →
      enabledWalks (w :: ws) = enabledWalks ws) := by
  constructor
  · intro h
    constructor <;> simp [enabledWalks, List.filter_cons, h]
  · intro hp he
    simp [enabledWalks, List.filter_cons, hp, he]

/-- C10 witness: an entry lacking `enabled` and an enabled entry lacking
`placeId` are both excluded. -/
theorem config_missing_keys_filtered_witness :
    enabledWalks [⟨"Routeburn Track", some 7, none⟩] = enabledWalks [] ∧
    enabledWalks [⟨"Heaphy Track", none, some true⟩] = enabledWalks [] :=
  ⟨((config_missing_keys_filtered ⟨"Routeburn Track", some 7, none⟩ []).1 rfl).1,
    (config_missing_keys_filtered ⟨"Heaphy Track", none, some true⟩ []).2 rfl rfl⟩

end Scraper
